import Mathlib

/-!
Verification of the account/ledger core of the BankAccount repository.

The repository stores money as Python `Decimal` values quantized to two
fraction digits with the default `ROUND_HALF_EVEN` rounding.  We model a
decimal value exactly as an integer mantissa with a base-ten scale, and a
monetary value as an integer number of cents.  The interest rate is likewise
held in hundredths (the repository's rates are two-digit decimals: the
default is 0.05 and `change_monthly_interest_rate` quantizes the new rate to
two digits before persisting it).

The Ledger Store (class `DataBase` of src/database.py, backed by sqlite) is
modelled by its observable state: the persisted transaction-id counter, the
persisted monthly interest rate, and the append-only transaction log.  Each
account operation also returns the ordered list of calls it issued against
the store, so that statements about how often and in which order the store
is touched can be made.

src/main.py holds an earlier revision of class `Account` (no `amount` field
on `ConfirmationNumber`, no persistence of records, operations return
nothing, the rate is a cached class attribute).  The test suite
src/test_Account.py targets the mature Account revision, which is not among
the provided sources (the tests import `AccountLimitExceededError` and
`database_filename` and construct `Account` with three arguments, none of
which exist in src/main.py).  Definitions below that depend on the mature
revision are marked `Modelled from the spec:`; everything both revisions
agree on (the id draw, validation order, balance arithmetic) is translated
from src/main.py, and the `DataBase` definitions are translated from
src/database.py.
-/

namespace Bank

/-- Exceptions of the Python `decimal` module and builtins that the
`Decimal` constructor can raise. -/
inductive PyExc
  | invalidOperation
  | typeError
  | valueError
  deriving DecidableEq

/-- The kinds of values the repository's callers pass as amounts (see
src/test_Account.py:65-87): numeric values, numeric-looking strings, and the
non-numeric values None, lists, tuples, sets, dicts, arbitrary strings and
the empty string.  A numeric value is an exact decimal `mant * 10 ^ (-scale)`
(Python `Decimal` arithmetic is exact). -/
inductive PyValue
  | number (mant : ℤ) (scale : ℕ)
  | numericString (mant : ℤ) (scale : ℕ)
  | nonNumericString
  | emptyString
  | noneValue
  | listValue
  | tupleValue
  | setValue
  | dictValue
  deriving DecidableEq

/-- An exact decimal value: `mant * 10 ^ (-scale)`. -/
structure DecimalValue where
  mant : ℤ
  scale : ℕ
  deriving DecidableEq

/-- The Python `Decimal` constructor: numbers and numeric strings convert;
non-numeric and empty strings raise `InvalidOperation`; `None`, sets and
dicts raise `TypeError`; lists and tuples of the wrong shape raise
`ValueError` (they are read as `(sign, digits, exponent)` triples). -/
def Decimal : PyValue → Except PyExc DecimalValue
  | PyValue.number m k => Except.ok ⟨m, k⟩
  | PyValue.numericString m k => Except.ok ⟨m, k⟩
  | PyValue.nonNumericString => Except.error PyExc.invalidOperation
  | PyValue.emptyString => Except.error PyExc.invalidOperation
  | PyValue.noneValue => Except.error PyExc.typeError
  | PyValue.listValue => Except.error PyExc.valueError
  | PyValue.tupleValue => Except.error PyExc.valueError
  | PyValue.setValue => Except.error PyExc.typeError
  | PyValue.dictValue => Except.error PyExc.typeError

/-- Round the exact quotient `n / d` (for `0 < d`) to the nearest integer,
ties to the even neighbour: Python's `ROUND_HALF_EVEN`, the default rounding
of `Decimal.quantize`. -/
def divRoundHalfEven (n d : ℤ) : ℤ :=
  let q := n / d
  let r := n % d
  if 2 * r < d then q
  else if d < 2 * r then q + 1
  else if q % 2 = 0 then q else q + 1

/-- `Decimal(x).quantize(Decimal('.01'))`, expressed in cents: the decimal
`mant * 10 ^ (-scale)` scaled to two fraction digits with half-even
rounding. -/
def quantizeCents (d : DecimalValue) : ℤ :=
  if d.scale ≤ 2 then d.mant * 10 ^ (2 - d.scale)
  else divRoundHalfEven d.mant (10 ^ (d.scale - 2))

/-- `Account.is_amount_a_number` as written in src/main.py:386-392: only
`InvalidOperation` is caught, so the `TypeError`/`ValueError` raised for
None, sets, dicts, lists and tuples propagates to the caller. -/
def is_amount_a_number_v0 (v : PyValue) : Except PyExc Bool :=
  match Decimal v with
  | Except.ok _ => Except.ok true
  | Except.error PyExc.invalidOperation => Except.ok false
  | Except.error e => Except.error e

/-- Modelled from the spec: `Account.is_amount_a_number` of the mature
Account revision, absent from src/.  Spec section 4.1 requires the predicate
to mark invalid input without throwing, and src/test_Account.py:65-87
asserts a decline (not a `TypeError`) for None, lists, tuples, sets, dicts
and non-numeric strings, so every conversion failure is caught. -/
def is_amount_a_number (v : PyValue) : Except PyExc Bool :=
  match Decimal v with
  | Except.ok _ => Except.ok true
  | Except.error _ => Except.ok false

/-- Whether an amount passes the numeric check (the boolean the account
operations branch on). -/
def amount_ok (v : PyValue) : Bool :=
  match Decimal v with
  | Except.ok _ => true
  | Except.error _ => false

/-- Transaction type tags as stored by the repository: 'D' deposit,
'I' interest deposit, 'W' withdrawal, 'X' declined. -/
inductive TransactionType
  | D
  | I
  | W
  | X
  deriving DecidableEq

/-- `ConfirmationNumber` of the mature revision (the earlier revision in
src/main.py:51-60 lacks `amount`; src/database.py:188-199 reads rows
`(id, account_number, type, created_at, amount)` back into it, and the tests
assert on a `amount` attribute).  Times are UTC instants modelled as
seconds; account numbers are 16-digit strings modelled as naturals; amounts
are cents. -/
structure ConfirmationNumber where
  transaction_type : TransactionType
  account_number : ℕ
  transaction_time : ℤ
  transaction_id : ℕ
  amount : ℤ
  deriving DecidableEq

/-- Observable state of the Ledger Store (class `DataBase`,
src/database.py): the persisted transaction-id counter (default 0), the
persisted monthly interest rate in hundredths (default 5, i.e. 0.05), and
the append-only transaction log. -/
structure LedgerState where
  next_transaction_id : ℕ
  monthly_interest_rate : ℤ
  transactions : List ConfirmationNumber
  deriving DecidableEq

/-- One call against the Ledger Store, recorded in the order the operation
issued it. -/
inductive LedgerEvent
  | loadId (ret : ℕ)
  | saveId (v : ℕ)
  | loadRate (ret : ℤ)
  | saveRate (v : ℤ)
  | addTransaction (cn : ConfirmationNumber)
  deriving DecidableEq

/-- `DataBase.load_transaction_id` (src/database.py:245-264): return the
stored counter. -/
def load_transaction_id (st : LedgerState) : ℕ :=
  st.next_transaction_id

/-- `DataBase.save_transaction_id` (src/database.py:266-285): overwrite the
stored counter. -/
def save_transaction_id (st : LedgerState) (n : ℕ) : LedgerState :=
  { st with next_transaction_id := n }

/-- `DataBase.load_monthly_interest_rate` (src/database.py:287-306): return
the stored rate. -/
def load_monthly_interest_rate (st : LedgerState) : ℤ :=
  st.monthly_interest_rate

/-- `DataBase.save_monthly_interest_rate` (src/database.py:308-329):
overwrite the stored rate. -/
def save_monthly_interest_rate (st : LedgerState) (r : ℤ) : LedgerState :=
  { st with monthly_interest_rate := r }

/-- `DataBase.add_transaction` (src/database.py:163-186): insert one row
into the transactions table. -/
def add_transaction (st : LedgerState) (cn : ConfirmationNumber) : LedgerState :=
  { st with transactions := st.transactions ++ [cn] }

/-- In-memory state of an `Account`: identity, balance in cents, and the
transient list of records produced this session. -/
structure AccountState where
  account_number : ℕ
  balance : ℤ
  transactions : List ConfirmationNumber
  deriving DecidableEq

/-- The decline reasons of `TransactionDeclinedError` (src/main.py). -/
inductive DeclineReason
  | amountNotANumber
  | amountNotPositive
  | amountExceedsBalance
  deriving DecidableEq

/-- Everything one call to `deposit`, `withdraw` or `apply_interest`
produces: the returned record (or the decline raised), the new account
state, the new Ledger Store state, and the ordered store calls made. -/
structure OpResult where
  outcome : Except DeclineReason ConfirmationNumber
  account : AccountState
  ledger : LedgerState
  events : List LedgerEvent

/-- `Account._transaction_failure` (src/main.py:394-396): the already-built
record is reused with its type mutated to Declined. -/
def transaction_failure (cn : ConfirmationNumber) : ConfirmationNumber :=
  { cn with transaction_type := TransactionType.X }

/-- Shared decline path: mutate the record's type to `X`, append it to the
session list (src/main.py:394-396), persist it via `add_transaction`, and
raise.  The persisted amount stays at the 0.00 placeholder. -/
def declined_result (a : AccountState) (st1 : LedgerState)
    (cn0 : ConfirmationNumber) (e : DeclineReason) : OpResult :=
  let cnX := transaction_failure cn0
  { outcome := Except.error e
    account := { a with transactions := a.transactions ++ [cnX] }
    ledger := add_transaction st1 cnX
    events := [LedgerEvent.loadId cn0.transaction_id,
               LedgerEvent.saveId (cn0.transaction_id + 1),
               LedgerEvent.addTransaction cnX] }

/-- Modelled from the spec: `Account.deposit` of the mature revision.  The
earlier revision in src/main.py:328-346 fixes the id draw (load once, persist
id+1 before validating), the quantize-then-clamp of negative amounts and the
balance update; the record's `amount` field, the `add_transaction` persist
and returning the record are from spec section 4.2 and the tests
(src/test_Account.py:31-137). -/
def deposit (a : AccountState) (st : LedgerState) (now : ℤ)
    (amount : PyValue) : OpResult :=
  let id := load_transaction_id st
  let st1 := save_transaction_id st (id + 1)
  let cn0 : ConfirmationNumber :=
    ⟨TransactionType.D, a.account_number, now, id, 0⟩
  match Decimal amount with
  | Except.error _ => declined_result a st1 cn0 DeclineReason.amountNotANumber
  | Except.ok d =>
    let amt := max (quantizeCents d) 0
    let cn := { cn0 with amount := amt }
    { outcome := Except.ok cn
      account := { a with balance := a.balance + amt
                          transactions := a.transactions ++ [cn] }
      ledger := add_transaction st1 cn
      events := [LedgerEvent.loadId id, LedgerEvent.saveId (id + 1),
                 LedgerEvent.addTransaction cn] }

/-- Modelled from the spec: `Account.withdraw` of the mature revision.  The
earlier revision in src/main.py:360-384 fixes the id draw and the three
validation checks in order (numeric, positive, within balance); the amount
field, persistence and return value are from spec section 4.2 and the tests
(src/test_Account.py:265-404). -/
def withdraw (a : AccountState) (st : LedgerState) (now : ℤ)
    (amount : PyValue) : OpResult :=
  let id := load_transaction_id st
  let st1 := save_transaction_id st (id + 1)
  let cn0 : ConfirmationNumber :=
    ⟨TransactionType.W, a.account_number, now, id, 0⟩
  match Decimal amount with
  | Except.error _ => declined_result a st1 cn0 DeclineReason.amountNotANumber
  | Except.ok d =>
    let amt := quantizeCents d
    if amt ≤ 0 then declined_result a st1 cn0 DeclineReason.amountNotPositive
    else if a.balance < amt then
      declined_result a st1 cn0 DeclineReason.amountExceedsBalance
    else
      let cn := { cn0 with amount := amt }
      { outcome := Except.ok cn
        account := { a with balance := a.balance - amt
                            transactions := a.transactions ++ [cn] }
        ledger := add_transaction st1 cn
        events := [LedgerEvent.loadId id, LedgerEvent.saveId (id + 1),
                   LedgerEvent.addTransaction cn] }

/-- Modelled from the spec: `Account.apply_interest` of the mature revision.
The earlier revision in src/main.py:348-358 fixes the id draw and the
balance update `balance += (balance * rate).quantize(.01)` but reads a rate
cached on the Account class; the mature revision reads it fresh from the
store on every call (spec section 4.2, and
src/test_Account.py:140-212 mocks `load_monthly_interest_rate`).  With the
balance in cents and the rate in hundredths the exact product is
`balance * rate / 100` cents, quantized half-even. -/
def apply_interest (a : AccountState) (st : LedgerState) (now : ℤ) : OpResult :=
  let id := load_transaction_id st
  let st1 := save_transaction_id st (id + 1)
  let rate := load_monthly_interest_rate st1
  let interest := divRoundHalfEven (a.balance * rate) 100
  let cn : ConfirmationNumber :=
    ⟨TransactionType.I, a.account_number, now, id, interest⟩
  { outcome := Except.ok cn
    account := { a with balance := a.balance + interest
                        transactions := a.transactions ++ [cn] }
    ledger := add_transaction st1 cn
    events := [LedgerEvent.loadId id, LedgerEvent.saveId (id + 1),
               LedgerEvent.loadRate rate, LedgerEvent.addTransaction cn] }

/-- The invalid-rate error (`ValueError` in the tests, spec error
`InvalidRate`). -/
inductive RateError
  | invalidRate
  deriving DecidableEq

/-- Result of a rate change: outcome, store state, the process-wide default
rate (the `Account.monthly_interest_rate` class attribute), and the store
calls made. -/
structure RateChangeResult where
  outcome : Except RateError Unit
  ledger : LedgerState
  default_rate : ℤ
  events : List LedgerEvent

/-- Modelled from the spec: `Account.change_monthly_interest_rate`, absent
from src/ (only its tests, src/test_Account.py:215-262, and the store's
`save_monthly_interest_rate` are provided).  Spec section 4.3: validate that
the new rate is a number, at least 0 and at most 0.40; on failure fail with
no side effect; on success persist the rate and update the process-wide
default.  The tests pin that the rate is quantized to two digits
(0.06500 is saved as 0.06) before being persisted. -/
def change_monthly_interest_rate (new_rate : PyValue) (st : LedgerState)
    (default_rate : ℤ) : RateChangeResult :=
  match Decimal new_rate with
  | Except.error _ => ⟨Except.error RateError.invalidRate, st, default_rate, []⟩
  | Except.ok d =>
    let rc := quantizeCents d
    if rc < 0 then ⟨Except.error RateError.invalidRate, st, default_rate, []⟩
    else if 40 < rc then
      ⟨Except.error RateError.invalidRate, st, default_rate, []⟩
    else
      ⟨Except.ok (), save_monthly_interest_rate st rc, rc,
        [LedgerEvent.saveRate rc]⟩

/-- The `transaction_type` argument of `get_transactions_by_type`:
the four recognized strings, or anything else (e.g. 'Bogus'). -/
inductive QueryType
  | qIn
  | qOut
  | qFailed
  | qAll
  | qInvalid
  deriving DecidableEq

/-- The `ValueError`s of `DataBase.get_transactions_by_type`
(src/database.py:204-227). -/
inductive QueryError
  | invalidTimeRange
  | invalidTransactionType
  deriving DecidableEq

/-- The SQL type condition built per branch in src/database.py:218-227:
In matches types 'D' or 'I', Out matches 'W', Failed matches 'X', All has no
type condition; any other string has no query at all. -/
def type_pred : QueryType → Option (TransactionType → Bool)
  | QueryType.qIn => some fun t => decide (t = TransactionType.D) ||
      decide (t = TransactionType.I)
  | QueryType.qOut => some fun t => decide (t = TransactionType.W)
  | QueryType.qFailed => some fun t => decide (t = TransactionType.X)
  | QueryType.qAll => some fun _ => true
  | QueryType.qInvalid => none

/-- The type filter as the spec states it: In = Deposit and Interest,
Out = Withdrawal, Failed = Declined, All = everything. -/
def matches_query : QueryType → TransactionType → Bool
  | QueryType.qIn, t => decide (t = TransactionType.D ∨ t = TransactionType.I)
  | QueryType.qOut, t => decide (t = TransactionType.W)
  | QueryType.qFailed, t => decide (t = TransactionType.X)
  | QueryType.qAll, _ => true
  | QueryType.qInvalid, _ => false

/-- The ORDER BY created_at DESC ordering: timestamps nonincreasing. -/
def timeDesc (x y : ConfirmationNumber) : Prop :=
  y.transaction_time ≤ x.transaction_time

instance : DecidableRel timeDesc := fun x y =>
  inferInstanceAs (Decidable (y.transaction_time ≤ x.transaction_time))

instance : IsTotal ConfirmationNumber timeDesc :=
  ⟨fun x y => le_total y.transaction_time x.transaction_time⟩

instance : IsTrans ConfirmationNumber timeDesc :=
  ⟨fun _ _ _ h h2 => le_trans h2 h⟩

/-- The body of `DataBase.get_transactions_by_type`
(src/database.py:201-243): validate the time range (7, 30 or 90 days, else
`ValueError('Invalid time range')`), then the transaction type (else
`ValueError('Invalid transaction_type')`), then select this account's rows
whose `created_at` lies in `[now - days, now]` (SQL BETWEEN is inclusive),
ordered by `created_at` descending.  One day is 86400 seconds. -/
def get_transactions_by_type_body (log : List ConfirmationNumber) (now : ℤ)
    (account_number : ℕ) (transaction_type : QueryType) (time_range : ℤ) :
    Except QueryError (List ConfirmationNumber) :=
  if time_range = 7 ∨ time_range = 30 ∨ time_range = 90 then
    let start_date := now - time_range * 86400
    match type_pred transaction_type with
    | none => Except.error QueryError.invalidTransactionType
    | some p =>
      Except.ok (List.insertionSort timeDesc
        (log.filter fun cn =>
          decide (cn.account_number = account_number) &&
          p cn.transaction_type &&
          decide (start_date ≤ cn.transaction_time) &&
          decide (cn.transaction_time ≤ now)))
  else Except.error QueryError.invalidTimeRange

/-- `DataBase.get_transactions_by_type` is a Python generator function:
calling it runs none of the body and returns a generator object; the body
(including both argument checks) runs only when the first element is
requested.  The generator is modelled as a thunk. -/
def get_transactions_by_type (log : List ConfirmationNumber) (now : ℤ)
    (account_number : ℕ) (transaction_type : QueryType) (time_range : ℤ) :
    Unit → Except QueryError (List ConfirmationNumber) :=
  fun _ =>
    get_transactions_by_type_body log now account_number transaction_type
      time_range

/-- One account operation together with its amount argument, for reasoning
about sequences of operations against one Ledger Store. -/
inductive AccountOp
  | depositOp (amount : PyValue)
  | withdrawOp (amount : PyValue)
  | applyInterestOp
  deriving DecidableEq

/-- Run one operation. -/
def runOp : AccountOp → AccountState → LedgerState → ℤ → OpResult
  | AccountOp.depositOp v, a, st, now => deposit a st now v
  | AccountOp.withdrawOp v, a, st, now => withdraw a st now v
  | AccountOp.applyInterestOp, a, st, now => apply_interest a st now

/-- The sequence id an operation drew from the store: the value returned by
its (single) `load_transaction_id` call. -/
def op_assigned_id (r : OpResult) : ℕ :=
  match r.events with
  | LedgerEvent.loadId n :: _ => n
  | _ => 0

/-- Recognizes `load_transaction_id` calls in an event trace. -/
def is_load_id : LedgerEvent → Bool
  | LedgerEvent.loadId _ => true
  | _ => false

/-- Recognizes `add_transaction` calls in an event trace. -/
def is_add_transaction : LedgerEvent → Bool
  | LedgerEvent.addTransaction _ => true
  | _ => false

/-- Run a list of timestamped operations sequentially and collect the
sequence id each one drew. -/
def runIds : List (AccountOp × ℤ) → AccountState → LedgerState → List ℕ
  | [], _, _ => []
  | p :: rest, a, st =>
    let r := runOp p.1 a st p.2
    op_assigned_id r :: runIds rest r.account r.ledger

/-- The three ways a withdrawal's validation can fail
(src/main.py:367-380): the amount is not a number, or quantizes to a
non-positive value, or exceeds the balance. -/
def withdraw_declines (a : AccountState) (v : PyValue) : Bool :=
  match Decimal v with
  | Except.error _ => true
  | Except.ok d =>
    decide (quantizeCents d ≤ 0) || decide (a.balance < quantizeCents d)

/-- Whether a `PyValue` is numeric (a number or a numeric string), i.e. not
one of the structured or non-numeric inputs. -/
def is_numeric_input : PyValue → Bool
  | PyValue.number _ _ => true
  | PyValue.numericString _ _ => true
  | _ => false

/-- The ways a rate-change request can fail validation: not a number, or
(after quantizing to two digits) negative, or above 0.40. -/
def rate_change_invalid (v : PyValue) : Bool :=
  match Decimal v with
  | Except.error _ => true
  | Except.ok d =>
    decide (quantizeCents d < 0) || decide (40 < quantizeCents d)

theorem divRoundHalfEven_nonneg {n d : ℤ} (hd : 0 < d) (hn : 0 ≤ n) :
    0 ≤ divRoundHalfEven n d := by
  have hq : 0 ≤ n / d := Int.ediv_nonneg hn hd.le
  simp only [divRoundHalfEven]
  split
  · exact hq
  split
  · exact add_nonneg hq zero_le_one
  split
  · exact hq
  · exact add_nonneg hq zero_le_one

theorem divRoundHalfEven_nonpos {n d : ℤ} (hd : 0 < d) (hn : n ≤ 0) :
    divRoundHalfEven n d ≤ 0 := by
  have hq : n / d ≤ 0 := by
    have h := Int.ediv_le_ediv hd hn
    simpa using h
  have hid : d * (n / d) + n % d = n := Int.ediv_add_emod n d
  have hq1 : ¬ 2 * (n % d) < d → n / d + 1 ≤ 0 := by
    intro h1
    rcases lt_or_eq_of_le hq with hlt | heq
    · omega
    · exfalso
      rw [heq, mul_zero, zero_add] at hid
      rw [hid] at h1
      omega
  simp only [divRoundHalfEven]
  split
  · exact hq
  split
  · rename_i h1 _
    exact hq1 h1
  split
  · exact hq
  · rename_i h1 _ _
    exact hq1 h1

theorem divRoundHalfEven_zero {d : ℤ} (hd : 0 < d) : divRoundHalfEven 0 d = 0 := by
  simp only [divRoundHalfEven, Int.zero_ediv, Int.zero_emod, mul_zero]
  rw [if_pos hd]

theorem quantizeCents_nonneg {d : DecimalValue} (h : 0 ≤ d.mant) :
    0 ≤ quantizeCents d := by
  simp only [quantizeCents]
  split
  · exact mul_nonneg h (pow_nonneg (by norm_num) _)
  · exact divRoundHalfEven_nonneg (pow_pos (by norm_num) _) h

theorem quantizeCents_nonpos {d : DecimalValue} (h : d.mant ≤ 0) :
    quantizeCents d ≤ 0 := by
  simp only [quantizeCents]
  split
  · have h2 := mul_le_mul_of_nonneg_right h
      (pow_nonneg (by norm_num : (0:ℤ) ≤ 10) (2 - d.scale))
    simpa using h2
  · exact divRoundHalfEven_nonpos (pow_pos (by norm_num) _) h

theorem quantizeCents_mant_zero (k : ℕ) : quantizeCents ⟨0, k⟩ = 0 := by
  simp only [quantizeCents]
  split
  · simp
  · exact divRoundHalfEven_zero (pow_pos (by norm_num) _)

/-- Quantizing the clamped amount and clamping the quantized amount agree:
the code clamps after quantizing (src/main.py:339-342), the spec describes
`max(amount, 0)` quantized to 2 digits. -/
theorem quantizeCents_max (m : ℤ) (k : ℕ) :
    quantizeCents ⟨max m 0, k⟩ = max (quantizeCents ⟨m, k⟩) 0 := by
  rcases le_total 0 m with h | h
  · rw [max_eq_left h, max_eq_left (quantizeCents_nonneg (d := ⟨m, k⟩) h)]
  · rw [max_eq_right h, max_eq_right (quantizeCents_nonpos (d := ⟨m, k⟩) h)]
    exact quantizeCents_mant_zero k

theorem runOp_counter (op : AccountOp) (a : AccountState) (st : LedgerState)
    (now : ℤ) :
    (runOp op a st now).ledger.next_transaction_id =
      st.next_transaction_id + 1 := by
  cases op with
  | depositOp v =>
    cases h : Decimal v <;>
      simp [runOp, deposit, h, declined_result, add_transaction,
        save_transaction_id, load_transaction_id]
  | withdrawOp v =>
    cases h : Decimal v with
    | error e =>
      simp [runOp, withdraw, h, declined_result, add_transaction,
        save_transaction_id, load_transaction_id]
    | ok d =>
      simp only [runOp, withdraw, h]
      split
      · simp [declined_result, add_transaction, save_transaction_id,
          load_transaction_id]
      split <;>
        simp [declined_result, add_transaction, save_transaction_id,
          load_transaction_id]
  | applyInterestOp =>
    simp [runOp, apply_interest, add_transaction, save_transaction_id,
      load_transaction_id]

theorem runOp_id (op : AccountOp) (a : AccountState) (st : LedgerState)
    (now : ℤ) :
    op_assigned_id (runOp op a st now) = st.next_transaction_id := by
  cases op with
  | depositOp v =>
    cases h : Decimal v <;>
      simp [runOp, deposit, h, declined_result, op_assigned_id,
        load_transaction_id]
  | withdrawOp v =>
    cases h : Decimal v with
    | error e =>
      simp [runOp, withdraw, h, declined_result, op_assigned_id,
        load_transaction_id]
    | ok d =>
      simp only [runOp, withdraw, h]
      split
      · simp [declined_result, op_assigned_id, load_transaction_id]
      split <;> simp [declined_result, op_assigned_id, load_transaction_id]
  | applyInterestOp =>
    simp [runOp, apply_interest, op_assigned_id, load_transaction_id]

theorem runIds_eq (ops : List (AccountOp × ℤ)) :
    ∀ (a : AccountState) (st : LedgerState),
      runIds ops a st = List.range' st.next_transaction_id ops.length := by
  induction ops with
  | nil => intro a st; rfl
  | cons p rest ih =>
    intro a st
    show op_assigned_id (runOp p.1 a st p.2) ::
      runIds rest (runOp p.1 a st p.2).account (runOp p.1 a st p.2).ledger = _
    rw [runOp_id, ih, runOp_counter, List.length_cons]
    rfl

theorem runOp_events (op : AccountOp) (a : AccountState) (st : LedgerState)
    (now : ℤ) :
    ∃ rest, (runOp op a st now).events =
      LedgerEvent.loadId st.next_transaction_id ::
        LedgerEvent.saveId (st.next_transaction_id + 1) :: rest := by
  cases op with
  | depositOp v =>
    cases h : Decimal v with
    | error e =>
      simp only [runOp, deposit, h, declined_result]
      exact ⟨_, rfl⟩
    | ok d =>
      simp only [runOp, deposit, h]
      exact ⟨_, rfl⟩
  | withdrawOp v =>
    cases h : Decimal v with
    | error e =>
      simp only [runOp, withdraw, h, declined_result]
      exact ⟨_, rfl⟩
    | ok d =>
      simp only [runOp, withdraw, h]
      split
      · simp only [declined_result]
        exact ⟨_, rfl⟩
      split
      · simp only [declined_result]
        exact ⟨_, rfl⟩
      · exact ⟨_, rfl⟩
  | applyInterestOp => exact ⟨_, rfl⟩

theorem runOp_persists (op : AccountOp) (a : AccountState) (st : LedgerState)
    (now : ℤ) :
    ∃ cn, (runOp op a st now).ledger.transactions = st.transactions ++ [cn] ∧
      cn.transaction_id = st.next_transaction_id := by
  cases op with
  | depositOp v =>
    cases h : Decimal v with
    | error e =>
      simp only [runOp, deposit, h, declined_result, add_transaction,
        transaction_failure]
      exact ⟨_, rfl, rfl⟩
    | ok d =>
      simp only [runOp, deposit, h, add_transaction]
      exact ⟨_, rfl, rfl⟩
  | withdrawOp v =>
    cases h : Decimal v with
    | error e =>
      simp only [runOp, withdraw, h, declined_result, add_transaction,
        transaction_failure]
      exact ⟨_, rfl, rfl⟩
    | ok d =>
      simp only [runOp, withdraw, h]
      split
      · simp only [declined_result, add_transaction, transaction_failure]
        exact ⟨_, rfl, rfl⟩
      split
      · simp only [declined_result, add_transaction, transaction_failure]
        exact ⟨_, rfl, rfl⟩
      · simp only [add_transaction]
        exact ⟨_, rfl, rfl⟩
  | applyInterestOp =>
    simp only [runOp, apply_interest, add_transaction]
    exact ⟨_, rfl, rfl⟩

theorem runOp_loadId_count (op : AccountOp) (a : AccountState)
    (st : LedgerState) (now : ℤ) :
    (runOp op a st now).events.countP is_load_id = 1 := by
  cases op with
  | depositOp v =>
    cases h : Decimal v <;>
      simp [runOp, deposit, h, declined_result, is_load_id, List.countP_cons]
  | withdrawOp v =>
    cases h : Decimal v with
    | error e =>
      simp [runOp, withdraw, h, declined_result, is_load_id, List.countP_cons]
    | ok d =>
      simp only [runOp, withdraw, h]
      split
      · simp [declined_result, is_load_id, List.countP_cons]
      split <;> simp [declined_result, is_load_id, List.countP_cons]
  | applyInterestOp =>
    simp [runOp, apply_interest, is_load_id, List.countP_cons]

/-- Claim C1: every call to deposit, withdraw or apply_interest, whatever
its outcome, reads the ledger's transaction-id counter exactly once, persists
counter + 1 as its very next store call (before any amount validation),
assigns the persisted record the sequence id equal to the stored counter,
and leaves the counter at counter + 1; consequently, across any sequence of
operations run against one Ledger Store, the assigned sequence ids are
strictly increasing and unique. -/
theorem claim1_sequence_ids_unique_and_increasing :
    (∀ (op : AccountOp) (a : AccountState) (st : LedgerState) (now : ℤ),
      (runOp op a st now).events.countP is_load_id = 1 ∧
      (∃ rest, (runOp op a st now).events =
        LedgerEvent.loadId st.next_transaction_id ::
          LedgerEvent.saveId (st.next_transaction_id + 1) :: rest) ∧
      (runOp op a st now).ledger.next_transaction_id =
        st.next_transaction_id + 1 ∧
      (∃ cn, (runOp op a st now).ledger.transactions =
          st.transactions ++ [cn] ∧
        cn.transaction_id = st.next_transaction_id)) ∧
    (∀ (ops : List (AccountOp × ℤ)) (a : AccountState) (st : LedgerState),
      List.Pairwise (fun i j => i < j) (runIds ops a st) ∧
      (runIds ops a st).Nodup) := by
  constructor
  · intro op a st now
    exact ⟨runOp_loadId_count op a st now, runOp_events op a st now,
      runOp_counter op a st now, runOp_persists op a st now⟩
  · intro ops a st
    have hp : List.Pairwise (fun i j => i < j) (runIds ops a st) := by
      rw [runIds_eq]
      exact List.pairwise_lt_range' _ _
    exact ⟨hp, hp.imp fun hlt => Nat.ne_of_lt hlt⟩

/-- Claim C2: a deposit or withdraw whose amount fails validation mutates
the already-built record's type to Declined, persists that record via the
ledger's add_transaction, raises a declined error, and leaves the balance
unchanged; the persisted declined record carries amount 0.00. -/
theorem claim2_declined_operations (a : AccountState) (st : LedgerState)
    (now : ℤ) (v : PyValue) :
    (amount_ok v = false →
      (deposit a st now v).outcome =
        Except.error DeclineReason.amountNotANumber ∧
      (deposit a st now v).account.balance = a.balance ∧
      ∃ cn, (deposit a st now v).ledger.transactions =
          st.transactions ++ [cn] ∧
        cn.transaction_type = TransactionType.X ∧
        cn.amount = 0 ∧
        cn.account_number = a.account_number ∧
        cn.transaction_time = now ∧
        cn.transaction_id = st.next_transaction_id) ∧
    (withdraw_declines a v = true →
      (∃ e, (withdraw a st now v).outcome = Except.error e) ∧
      (withdraw a st now v).account.balance = a.balance ∧
      ∃ cn, (withdraw a st now v).ledger.transactions =
          st.transactions ++ [cn] ∧
        cn.transaction_type = TransactionType.X ∧
        cn.amount = 0 ∧
        cn.account_number = a.account_number ∧
        cn.transaction_time = now ∧
        cn.transaction_id = st.next_transaction_id) := by
  constructor
  · intro h
    cases hD : Decimal v with
    | error e =>
      simp only [deposit, hD]
      exact ⟨rfl, rfl, ⟨_, rfl, rfl, rfl, rfl, rfl, rfl⟩⟩
    | ok d =>
      exfalso
      simp [amount_ok, hD] at h
  · intro h
    cases hD : Decimal v with
    | error e =>
      simp only [withdraw, hD]
      exact ⟨⟨_, rfl⟩, rfl, ⟨_, rfl, rfl, rfl, rfl, rfl, rfl⟩⟩
    | ok d =>
      rw [withdraw_declines, hD] at h
      rw [Bool.or_eq_true, decide_eq_true_iff, decide_eq_true_iff] at h
      simp only [withdraw, hD]
      by_cases h1 : quantizeCents d ≤ 0
      · rw [if_pos h1]
        exact ⟨⟨_, rfl⟩, rfl, ⟨_, rfl, rfl, rfl, rfl, rfl, rfl⟩⟩
      · have h2 : a.balance < quantizeCents d := by tauto
        rw [if_neg h1, if_pos h2]
        exact ⟨⟨_, rfl⟩, rfl, ⟨_, rfl, rfl, rfl, rfl, rfl, rfl⟩⟩

theorem claim2_witness :
    ((withdraw ⟨1111, 500000, []⟩ ⟨0, 5, []⟩ 0
        (PyValue.number 6000 0)).account.balance = 500000 ∧
      ∃ cn, (withdraw ⟨1111, 500000, []⟩ ⟨0, 5, []⟩ 0
          (PyValue.number 6000 0)).ledger.transactions = [] ++ [cn] ∧
        cn.transaction_type = TransactionType.X ∧ cn.amount = 0 ∧
        cn.account_number = 1111 ∧ cn.transaction_time = 0 ∧
        cn.transaction_id = 0) ∧
    (deposit ⟨1111, 500000, []⟩ ⟨0, 5, []⟩ 0 PyValue.noneValue).outcome =
      Except.error DeclineReason.amountNotANumber := by
  have hw := (claim2_declined_operations ⟨1111, 500000, []⟩ ⟨0, 5, []⟩ 0
    (PyValue.number 6000 0)).2 (by decide)
  have hd := (claim2_declined_operations ⟨1111, 500000, []⟩ ⟨0, 5, []⟩ 0
    PyValue.noneValue).1 (by decide)
  exact ⟨⟨hw.2.1, hw.2.2⟩, hd.1⟩

/-- Claim C3: a deposit, withdraw or apply_interest call that succeeds sets
the record's amount to the realized monetary effect, appends the record to
the account's in-memory session list, persists it exactly once via the
ledger's add_transaction, and returns that same record to the caller. -/
theorem claim3_success_persists_and_returns (a : AccountState)
    (st : LedgerState) (now : ℤ) (v : PyValue) (d : DecimalValue) :
    (Decimal v = Except.ok d →
      ∃ cn, (deposit a st now v).outcome = Except.ok cn ∧
        cn.amount = max (quantizeCents d) 0 ∧
        (deposit a st now v).account.balance =
          a.balance + max (quantizeCents d) 0 ∧
        (deposit a st now v).account.transactions = a.transactions ++ [cn] ∧
        (deposit a st now v).ledger.transactions = st.transactions ++ [cn] ∧
        (deposit a st now v).events.countP is_add_transaction = 1) ∧
    (Decimal v = Except.ok d → 0 < quantizeCents d →
        quantizeCents d ≤ a.balance →
      ∃ cn, (withdraw a st now v).outcome = Except.ok cn ∧
        cn.amount = quantizeCents d ∧
        (withdraw a st now v).account.balance = a.balance - quantizeCents d ∧
        (withdraw a st now v).account.transactions = a.transactions ++ [cn] ∧
        (withdraw a st now v).ledger.transactions = st.transactions ++ [cn] ∧
        (withdraw a st now v).events.countP is_add_transaction = 1) ∧
    (∃ cn, (apply_interest a st now).outcome = Except.ok cn ∧
      cn.amount =
        divRoundHalfEven (a.balance * st.monthly_interest_rate) 100 ∧
      (apply_interest a st now).account.balance = a.balance +
        divRoundHalfEven (a.balance * st.monthly_interest_rate) 100 ∧
      (apply_interest a st now).account.transactions =
        a.transactions ++ [cn] ∧
      (apply_interest a st now).ledger.transactions =
        st.transactions ++ [cn] ∧
      (apply_interest a st now).events.countP is_add_transaction = 1) := by
  refine ⟨?_, ?_, ?_⟩
  · intro h
    refine ⟨⟨TransactionType.D, a.account_number, now, st.next_transaction_id,
        max (quantizeCents d) 0⟩, ?_, rfl, ?_, ?_, ?_, ?_⟩ <;>
      simp [deposit, h, load_transaction_id, save_transaction_id,
        add_transaction, is_add_transaction, List.countP_cons]
  · intro h h1 h2
    refine ⟨⟨TransactionType.W, a.account_number, now, st.next_transaction_id,
        quantizeCents d⟩, ?_, rfl, ?_, ?_, ?_, ?_⟩ <;>
      · simp only [withdraw, h]
        rw [if_neg (not_le.mpr h1), if_neg (not_lt.mpr h2)]
        try simp [load_transaction_id, save_transaction_id, add_transaction,
          is_add_transaction, List.countP_cons]
        try rfl
  · refine ⟨⟨TransactionType.I, a.account_number, now, st.next_transaction_id,
        divRoundHalfEven (a.balance * st.monthly_interest_rate) 100⟩,
        ?_, rfl, ?_, ?_, ?_, ?_⟩ <;>
      simp [apply_interest, load_transaction_id, load_monthly_interest_rate,
        save_transaction_id, add_transaction, is_add_transaction,
        List.countP_cons]

theorem claim3_witness :
    ((deposit ⟨1111, 500000, []⟩ ⟨0, 5, []⟩ 0
        (PyValue.number 100 0)).account.balance =
      500000 + max (quantizeCents ⟨100, 0⟩) 0) ∧
    ((withdraw ⟨1111, 500000, []⟩ ⟨0, 5, []⟩ 0
        (PyValue.number 100 0)).account.balance =
      500000 - quantizeCents ⟨100, 0⟩) := by
  have h := claim3_success_persists_and_returns ⟨1111, 500000, []⟩
    ⟨0, 5, []⟩ 0 (PyValue.number 100 0) ⟨100, 0⟩
  obtain ⟨cn1, _, _, hb1, _⟩ := h.1 rfl
  obtain ⟨cn2, _, _, hb2, _⟩ := h.2.1 rfl (by decide) (by decide)
  exact ⟨hb1, hb2⟩

/-- Claim C4: apply_interest computes the interest from the rate persisted
in the Ledger Store at the time of the call (the call issues a rate load
against the store), not from a value cached on the Account type, so a
persisted rate change takes effect on the next apply_interest call. -/
theorem claim4_rate_read_fresh (a : AccountState) (st : LedgerState)
    (now : ℤ) (r : ℤ) :
    (apply_interest a (save_monthly_interest_rate st r) now).account.balance =
      a.balance + divRoundHalfEven (a.balance * r) 100 ∧
    (∃ cn, (apply_interest a (save_monthly_interest_rate st r) now).outcome =
        Except.ok cn ∧
      cn.amount = divRoundHalfEven (a.balance * r) 100) ∧
    LedgerEvent.loadRate r ∈
      (apply_interest a (save_monthly_interest_rate st r) now).events := by
  refine ⟨rfl, ⟨_, rfl, rfl⟩, ?_⟩
  simp [apply_interest, save_monthly_interest_rate, save_transaction_id,
    load_monthly_interest_rate, load_transaction_id]

/-- Claim C5: a deposit whose amount parses as a number always succeeds
(negative amounts are not declined); the balance increases by
max(amount, 0) quantized to two digits, and the recorded amount is the
clamped value — in particular deposit(-5) succeeds and adds 0.00. -/
theorem claim5_deposit_clamps_negative (a : AccountState) (st : LedgerState)
    (now : ℤ) (d : DecimalValue) (v : PyValue) :
    Decimal v = Except.ok d →
      (∃ cn, (deposit a st now v).outcome = Except.ok cn ∧
        cn.amount = max (quantizeCents d) 0) ∧
      (deposit a st now v).account.balance =
        a.balance + quantizeCents ⟨max d.mant 0, d.scale⟩ := by
  intro h
  constructor
  · simp only [deposit, h]
    exact ⟨_, rfl, rfl⟩
  · simp only [deposit, h]
    rw [quantizeCents_max d.mant d.scale]

theorem claim5_witness :
    (∃ cn, (deposit ⟨1111, 500000, []⟩ ⟨0, 5, []⟩ 0
        (PyValue.number (-5) 0)).outcome = Except.ok cn ∧
      cn.amount = max (quantizeCents ⟨-5, 0⟩) 0) ∧
    (deposit ⟨1111, 500000, []⟩ ⟨0, 5, []⟩ 0
      (PyValue.number (-5) 0)).account.balance = 500000 := by
  have h := claim5_deposit_clamps_negative ⟨1111, 500000, []⟩ ⟨0, 5, []⟩ 0
    ⟨-5, 0⟩ (PyValue.number (-5) 0) rfl
  refine ⟨h.1, ?_⟩
  rw [h.2]
  decide

/-- Claim C6: apply_interest adds round(balance * rate, 2 digits) to the
balance in exact decimal arithmetic; on balance 5000.00 at monthly rate
0.05 the new balance is exactly 5250.00 and the record's amount is the
interest portion 250.00 (all in cents). -/
theorem claim6_interest_on_5000_at_5_percent :
    (∀ (a : AccountState) (st : LedgerState) (now : ℤ),
      (apply_interest a st now).account.balance =
        a.balance +
          divRoundHalfEven (a.balance * st.monthly_interest_rate) 100) ∧
    (∀ (anum tid : ℕ) (log : List ConfirmationNumber) (now : ℤ),
      (apply_interest ⟨anum, 500000, []⟩ ⟨tid, 5, log⟩ now).account.balance =
        525000 ∧
      ∃ cn, (apply_interest ⟨anum, 500000, []⟩ ⟨tid, 5, log⟩ now).outcome =
          Except.ok cn ∧
        cn.amount = 25000) := by
  constructor
  · intro a st now
    rfl
  · intro anum tid log now
    constructor
    · show (500000 : ℤ) + divRoundHalfEven (500000 * 5) 100 = 525000
      decide
    · refine ⟨_, rfl, ?_⟩
      show divRoundHalfEven (500000 * 5) 100 = 25000
      decide

/-- Claim C7: the amount-validity predicate returns an invalid verdict,
without raising any exception, on every non-numeric input: None, lists,
tuples, sets, dicts, non-numeric strings and the empty string. -/
theorem claim7_predicate_total_on_invalid (v : PyValue) :
    is_numeric_input v = false → is_amount_a_number v = Except.ok false := by
  cases v <;> simp [is_numeric_input, is_amount_a_number, Decimal]

theorem claim7_witness :
    is_amount_a_number PyValue.noneValue = Except.ok false ∧
    is_amount_a_number PyValue.listValue = Except.ok false ∧
    is_amount_a_number PyValue.tupleValue = Except.ok false ∧
    is_amount_a_number PyValue.setValue = Except.ok false ∧
    is_amount_a_number PyValue.dictValue = Except.ok false ∧
    is_amount_a_number PyValue.nonNumericString = Except.ok false ∧
    is_amount_a_number PyValue.emptyString = Except.ok false :=
  ⟨claim7_predicate_total_on_invalid _ rfl,
    claim7_predicate_total_on_invalid _ rfl,
    claim7_predicate_total_on_invalid _ rfl,
    claim7_predicate_total_on_invalid _ rfl,
    claim7_predicate_total_on_invalid _ rfl,
    claim7_predicate_total_on_invalid _ rfl,
    claim7_predicate_total_on_invalid _ rfl⟩

/-- The SQL type condition the code builds agrees with the spec's filter
sets {In = D or I, Out = W, Failed = X, All = everything}. -/
theorem type_pred_eq (qt : QueryType) (h : qt ≠ QueryType.qInvalid) :
    type_pred qt = some (matches_query qt) := by
  cases qt with
  | qIn =>
    simp only [type_pred]
    congr 1
    try funext t
    try cases t <;> decide
  | qOut =>
    simp only [type_pred]
    congr 1
  | qFailed =>
    simp only [type_pred]
    congr 1
  | qAll =>
    simp only [type_pred]
    congr 1
  | qInvalid => exact absurd rfl h

/-- Claim C8: for a recognized type (All, In, Out, Failed) and window
(7, 30 or 90 days) the query yields exactly this account's records matching
the type filter within the inclusive UTC window, ordered by timestamp
descending; any other type or window fails with the corresponding
invalid-argument error, with no default applied. -/
theorem claim8_query_filter_window_order (log : List ConfirmationNumber)
    (now : ℤ) (acct : ℕ) (qt : QueryType) (tr : ℤ) :
    (qt ≠ QueryType.qInvalid → tr = 7 ∨ tr = 30 ∨ tr = 90 →
      ∃ l, get_transactions_by_type_body log now acct qt tr = Except.ok l ∧
        List.Perm l (log.filter fun cn =>
          decide (cn.account_number = acct) &&
          matches_query qt cn.transaction_type &&
          decide (now - tr * 86400 ≤ cn.transaction_time) &&
          decide (cn.transaction_time ≤ now)) ∧
        List.Sorted timeDesc l ∧
        (∀ cn, cn ∈ l ↔ cn ∈ log ∧ cn.account_number = acct ∧
          matches_query qt cn.transaction_type = true ∧
          now - tr * 86400 ≤ cn.transaction_time ∧
          cn.transaction_time ≤ now)) ∧
    (¬ (tr = 7 ∨ tr = 30 ∨ tr = 90) →
      get_transactions_by_type_body log now acct qt tr =
        Except.error QueryError.invalidTimeRange) ∧
    (tr = 7 ∨ tr = 30 ∨ tr = 90 → qt = QueryType.qInvalid →
      get_transactions_by_type_body log now acct qt tr =
        Except.error QueryError.invalidTransactionType) := by
  refine ⟨?_, ?_, ?_⟩
  · intro hq htr
    simp only [get_transactions_by_type_body]
    rw [if_pos htr, type_pred_eq qt hq]
    refine ⟨List.insertionSort timeDesc (log.filter fun cn =>
        decide (cn.account_number = acct) &&
        matches_query qt cn.transaction_type &&
        decide (now - tr * 86400 ≤ cn.transaction_time) &&
        decide (cn.transaction_time ≤ now)), rfl, ?_, ?_, ?_⟩
    · exact List.perm_insertionSort timeDesc _
    · exact List.sorted_insertionSort timeDesc _
    · intro cn
      simp only [List.mem_insertionSort, List.mem_filter, Bool.and_eq_true,
        decide_eq_true_iff]
      tauto
  · intro h
    simp only [get_transactions_by_type_body]
    rw [if_neg h]
  · intro htr hq
    subst hq
    simp only [get_transactions_by_type_body]
    rw [if_pos htr]
    try rfl

theorem claim8_witness :
    (∃ l, get_transactions_by_type_body
        [⟨TransactionType.D, 1, 999000, 0, 100⟩] 1000000 1
        QueryType.qIn 7 = Except.ok l) ∧
    get_transactions_by_type_body [⟨TransactionType.D, 1, 999000, 0, 100⟩]
        1000000 1 QueryType.qIn 8 =
      Except.error QueryError.invalidTimeRange ∧
    get_transactions_by_type_body [⟨TransactionType.D, 1, 999000, 0, 100⟩]
        1000000 1 QueryType.qInvalid 30 =
      Except.error QueryError.invalidTransactionType := by
  have h1 := (claim8_query_filter_window_order
    [⟨TransactionType.D, 1, 999000, 0, 100⟩] 1000000 1
    QueryType.qIn 7).1 (by decide) (Or.inl rfl)
  have h2 := (claim8_query_filter_window_order
    [⟨TransactionType.D, 1, 999000, 0, 100⟩] 1000000 1
    QueryType.qIn 8).2.1 (by decide)
  have h3 := (claim8_query_filter_window_order
    [⟨TransactionType.D, 1, 999000, 0, 100⟩] 1000000 1
    QueryType.qInvalid 30).2.2 (Or.inr (Or.inl rfl)) rfl
  obtain ⟨l, hl, _⟩ := h1
  exact ⟨⟨l, hl⟩, h2, h3⟩

/-- Claim C9: changeMonthlyInterestRate validates that the new rate is a
number between 0 and 0.40 inclusive; on an invalid rate it fails without
calling the store's save method, with no other side effect and without
consuming a transaction id; on a valid rate it persists the rate and
updates the process-wide default. -/
theorem claim9_rate_change_validation (st : LedgerState) (dft : ℤ)
    (v : PyValue) :
    (rate_change_invalid v = true →
      (change_monthly_interest_rate v st dft).outcome =
        Except.error RateError.invalidRate ∧
      (change_monthly_interest_rate v st dft).ledger = st ∧
      (change_monthly_interest_rate v st dft).default_rate = dft ∧
      (change_monthly_interest_rate v st dft).events = []) ∧
    (∀ d, Decimal v = Except.ok d → 0 ≤ quantizeCents d →
        quantizeCents d ≤ 40 →
      (change_monthly_interest_rate v st dft).outcome = Except.ok () ∧
      (change_monthly_interest_rate v st dft).ledger =
        save_monthly_interest_rate st (quantizeCents d) ∧
      (change_monthly_interest_rate v st dft).ledger.next_transaction_id =
        st.next_transaction_id ∧
      (change_monthly_interest_rate v st dft).default_rate =
        quantizeCents d ∧
      (change_monthly_interest_rate v st dft).events =
        [LedgerEvent.saveRate (quantizeCents d)]) := by
  constructor
  · intro h
    cases hD : Decimal v with
    | error e =>
      refine ⟨?_, ?_, ?_, ?_⟩ <;>
        · simp only [change_monthly_interest_rate, hD]
          try rfl
    | ok d =>
      simp only [rate_change_invalid, hD, Bool.or_eq_true,
        decide_eq_true_iff] at h
      rcases h with h1 | h2
      · refine ⟨?_, ?_, ?_, ?_⟩ <;>
          · simp only [change_monthly_interest_rate, hD]
            try rw [if_pos h1]
            try rfl
      · by_cases h1 : quantizeCents d < 0
        · refine ⟨?_, ?_, ?_, ?_⟩ <;>
            · simp only [change_monthly_interest_rate, hD]
              try rw [if_pos h1]
              try rfl
        · refine ⟨?_, ?_, ?_, ?_⟩ <;>
            · simp only [change_monthly_interest_rate, hD]
              try rw [if_neg h1, if_pos h2]
              try rfl
  · intro d hD hge hle
    refine ⟨?_, ?_, ?_, ?_, ?_⟩ <;>
      · simp only [change_monthly_interest_rate, hD]
        try rw [if_neg (not_lt.mpr hge), if_neg (not_lt.mpr hle)]
        try rfl

theorem claim9_witness :
    ((change_monthly_interest_rate (PyValue.numericString 41 2)
        ⟨7, 5, []⟩ 5).outcome = Except.error RateError.invalidRate ∧
      (change_monthly_interest_rate (PyValue.numericString 41 2)
        ⟨7, 5, []⟩ 5).ledger = ⟨7, 5, []⟩ ∧
      (change_monthly_interest_rate (PyValue.numericString 41 2)
        ⟨7, 5, []⟩ 5).events = []) ∧
    ((change_monthly_interest_rate (PyValue.numericString 65 3)
        ⟨7, 5, []⟩ 5).outcome = Except.ok () ∧
      (change_monthly_interest_rate (PyValue.numericString 65 3)
        ⟨7, 5, []⟩ 5).ledger.monthly_interest_rate = 6) := by
  have hi := (claim9_rate_change_validation ⟨7, 5, []⟩ 5
    (PyValue.numericString 41 2)).1 (by decide)
  have hv := (claim9_rate_change_validation ⟨7, 5, []⟩ 5
    (PyValue.numericString 65 3)).2 ⟨65, 3⟩ rfl (by decide) (by decide)
  refine ⟨⟨hi.1, hi.2.1, hi.2.2.2⟩, hv.1, ?_⟩
  rw [hv.2.1]
  decide

/-- Claim C10: calling get_transactions_by_type never fails at call time —
being a generator function, the call returns a generator object without
running the body; the invalid-argument error surfaces only when the first
element is requested, and the time range is validated before the
transaction type (an invalid time range wins when both are invalid). -/
theorem claim10_generator_lazy_validation (log : List ConfirmationNumber)
    (now : ℤ) (acct : ℕ) (qt : QueryType) (tr : ℤ) :
    (get_transactions_by_type log now acct qt tr = fun _ =>
      get_transactions_by_type_body log now acct qt tr) ∧
    (¬ (tr = 7 ∨ tr = 30 ∨ tr = 90) →
      get_transactions_by_type log now acct qt tr () =
        Except.error QueryError.invalidTimeRange) ∧
    (tr = 7 ∨ tr = 30 ∨ tr = 90 → qt = QueryType.qInvalid →
      get_transactions_by_type log now acct qt tr () =
        Except.error QueryError.invalidTransactionType) := by
  refine ⟨rfl, ?_, ?_⟩
  · intro h
    show get_transactions_by_type_body log now acct qt tr = _
    simp only [get_transactions_by_type_body]
    rw [if_neg h]
  · intro htr hq
    subst hq
    show get_transactions_by_type_body log now acct QueryType.qInvalid tr = _
    simp only [get_transactions_by_type_body]
    rw [if_pos htr]
    try rfl

theorem claim10_witness :
    get_transactions_by_type [] 0 0 QueryType.qInvalid 0 () =
      Except.error QueryError.invalidTimeRange ∧
    get_transactions_by_type [] 0 0 QueryType.qInvalid 7 () =
      Except.error QueryError.invalidTransactionType :=
  ⟨(claim10_generator_lazy_validation [] 0 0 QueryType.qInvalid 0).2.1
      (by decide),
    (claim10_generator_lazy_validation [] 0 0 QueryType.qInvalid 7).2.2
      (Or.inl rfl) rfl⟩

end Bank
